import Mathlib

/-!
Shallow embedding of the CencusBackend server (three revisions:
`src/index.js`, `src/unnamed/part_000`, `src/unnamed/part_001`).

The GDAL vector-dataset capability is opaque (per the design's non-goals):
a dataset is a list of layers, a layer an ordered list of records; a record
either yields its attribute map (`fields.toObject()`) and its geometry as
already translated by `JSON.parse(feature.getGeometry().toJSON())`, or
throws while being read (modelled as `Except.error`).  File-system and
network effects are recorded as an explicit event list; the environment
`Env` fixes the clock, the set of dataset files present in the data
directory (by base name), the result of `gdal.open` per file name, and the
remote-fetch results of the part_001 revision.
-/

set_option maxHeartbeats 1000000

namespace Census

/-- Scalar attribute value of a record field (string, number, boolean, null). -/
inductive Scalar where
  | str (s : String)
  | num (n : Int)
  | boolv (b : Bool)
  | nullv
deriving DecidableEq, Repr

/-- Attribute map produced by `feature.fields.toObject()` (field order kept). -/
abbrev Props := List (String × Scalar)

/-- Nested-coordinate geometry as produced by `JSON.parse(geometry.toJSON())`.
Coordinates are opaque scalars (the claims never compute with them). -/
inductive Geometry where
  | point (coordinates : List Int)
  | multiPoint (coordinates : List (List Int))
  | lineString (coordinates : List (List Int))
  | multiLineString (coordinates : List (List (List Int)))
  | polygon (coordinates : List (List (List Int)))
  | multiPolygon (coordinates : List (List (List (List Int))))
deriving DecidableEq, Repr

/-- One record of a layer, as the driver presents it to the reading loop. -/
structure SourceFeature where
  fields : Props
  geom : Geometry
deriving DecidableEq, Repr

/-- A layer: ordered records; a record that throws while being read
(`getGeometry()`/`toJSON()`/`JSON.parse` failure) is `Except.error`. -/
structure Layer where
  features : List (Except String SourceFeature)

/-- An opened dataset: its layers, `layers.get(0)` selects the head. -/
structure Dataset where
  layers : List Layer

/-- One GeoJSON feature as built by the reading loop. -/
structure Feature where
  type : String
  properties : Props
  geometry : Geometry
deriving DecidableEq, Repr

/-- The object pushed for one record:
`{ type: "Feature", properties: feature.fields.toObject(), geometry: ... }`. -/
def mkFeature (f : SourceFeature) : Feature :=
  ⟨"Feature", f.fields, f.geom⟩

/-- The body of `readFeaturesFromLayer`: iterate the records in order,
pushing one feature per record; an exception thrown mid-iteration
propagates and the partial array is discarded (atomic failure). -/
def readFeaturesE : List (Except String SourceFeature) → Except String (List Feature)
  | [] => Except.ok []
  | Except.error e :: _ => Except.error e
  | Except.ok f :: rest =>
    match readFeaturesE rest with
    | Except.error e => Except.error e
    | Except.ok fs => Except.ok (mkFeature f :: fs)

/-- `readFeaturesFromLayer(layer)` from `src/index.js` / `part_000`. -/
def readFeaturesFromLayer (layer : Layer) : Except String (List Feature) :=
  readFeaturesE layer.features

/-- `{ type: "FeatureCollection", features }`. -/
structure FeatureCollection where
  type : String
  features : List Feature
deriving DecidableEq, Repr

/-- JSON body of a response: a feature collection, an error object
(`error` plus optional `details`), or a plain message object. -/
inductive Body where
  | fc (collection : FeatureCollection)
  | err (error : String) (details : Option String)
  | msg (message : String)
deriving DecidableEq, Repr

/-- An HTTP response: status code and JSON body. -/
structure Response where
  status : Nat
  body : Body
deriving DecidableEq, Repr

/-- File-system events a handler performs, in order. -/
inductive FsEvent where
  | openDs (p : String)
  | closeDs (p : String)
  | writeTemp (p : String)
  | unlinkTemp (p : String)
deriving DecidableEq, Repr

/-- Result of `fetch(url)` when the promise resolves. -/
structure RemoteResp where
  ok : Bool
  status : Nat
  statusText : String
  blob : Nat

/-- The municipalities cache: `cache.municipalities`, a Map from department
code to `{ data, timestamp }` (insertion order kept, one entry per key). -/
abbrev MuniCache := List (String × (FeatureCollection × Nat))

/-- The `cache` object shared by the handlers of `index.js` / `part_000`. -/
structure ServerState where
  departments : Option FeatureCollection
  lastUpdated : Option Nat
  municipalities : MuniCache
deriving DecidableEq, Repr

/-- `Map.prototype.get`. -/
def mapGet {β : Type} : List (String × β) → String → Option β
  | [], _ => none
  | (k', v) :: rest, k => if k' = k then some v else mapGet rest k

/-- `Map.prototype.set`: replace in place or append. -/
def mapSet {β : Type} : List (String × β) → String → β → List (String × β)
  | [], k, v => [(k, v)]
  | (k', v') :: rest, k, v =>
    if k' = k then (k, v) :: rest else (k', v') :: mapSet rest k v

/-- The environment a request runs against. -/
structure Env where
  now : Nat
  files : List String
  openDs : String → Except String Dataset
  departmentDb : Option Dataset
  remote : String → Except String RemoteResp
  openBlob : Nat → Except String Dataset

/-- `CACHE_EXPIRY = 5 * 60 * 1000`. -/
def CACHE_EXPIRY : Nat := 5 * 60 * 1000

/-- Base name of the municipality dataset file inside the data directory:
the raw `departmentCode` string is interpolated into the template. -/
def muniFileName (code : String) : String :=
  "DPTO_CCDGO_" ++ code ++ ".gpkg"

/-- The fixed Supabase storage prefix of the part_001 revision. -/
def supabaseBase : String :=
  "https://hpsloblhlcykngehwzet.supabase.co/storage/v1/object/public/gpkgfiles/"

/-- `municipalityUrl` of part_001: raw code interpolated into the URL. -/
def municipalityUrl (code : String) : String :=
  supabaseBase ++ "DPTO_CCDGO_" ++ code ++ ".gpkg"

/-- `tempPath` of part_001: raw code interpolated into the temp file name. -/
def tempPathOf (code : String) : String :=
  "tmp_municipality_" ++ code ++ ".gpkg"

/-- What a municipalities request of `index.js` / `part_000` produces:
the response, the municipalities cache afterwards, the file-system events
in order, and how many times the producer ran (the lazy-load body). -/
structure MuniResult where
  response : Response
  munis : MuniCache
  events : List FsEvent
  produced : Nat
deriving DecidableEq, Repr

/-- What a departments request produces. -/
structure DeptResult where
  response : Response
  state : ServerState
  produced : Nat
deriving DecidableEq, Repr

/-- What a part_001 municipalities request produces (that revision keeps
no cache). -/
structure RemoteResult where
  response : Response
  events : List FsEvent
deriving DecidableEq, Repr

/-- The lazy-load body of `app.get("/api/municipalities/:departmentCode")`
in `src/index.js` (lines 90-106): existence check, `gdal.open`,
`layers.get(0)`, `readFeaturesFromLayer`, `close`, cache write, respond;
any throw is caught and answered with status 500. -/
def muniLoadIndex (env : Env) (m : MuniCache) (code : String) : MuniResult :=
  if muniFileName code ∉ env.files then
    ⟨⟨404, Body.err "Municipality data not found" none⟩, m, [], 1⟩
  else
    match env.openDs (muniFileName code) with
    | Except.error e =>
      ⟨⟨500, Body.err "Failed to read municipality data" (some e)⟩, m, [], 1⟩
    | Except.ok db =>
      match db.layers with
      | [] =>
        ⟨⟨500, Body.err "Failed to read municipality data" (some "Layer not found")⟩,
          m, [FsEvent.openDs (muniFileName code)], 1⟩
      | l :: _ =>
        match readFeaturesFromLayer l with
        | Except.error e =>
          ⟨⟨500, Body.err "Failed to read municipality data" (some e)⟩,
            m, [FsEvent.openDs (muniFileName code)], 1⟩
        | Except.ok fs =>
          ⟨⟨200, Body.fc ⟨"FeatureCollection", fs⟩⟩,
            mapSet m code (⟨"FeatureCollection", fs⟩, env.now),
            [FsEvent.openDs (muniFileName code), FsEvent.closeDs (muniFileName code)], 1⟩

/-- `app.get("/api/municipalities/:departmentCode")` of `src/index.js`
(lines 80-107): serve from cache when present and younger than
`CACHE_EXPIRY`, otherwise lazy-load. -/
def muniHandlerIndex (env : Env) (m : MuniCache) (code : String) : MuniResult :=
  match mapGet m code with
  | some (data, ts) =>
    if env.now - ts < CACHE_EXPIRY then ⟨⟨200, Body.fc data⟩, m, [], 0⟩
    else muniLoadIndex env m code
  | none => muniLoadIndex env m code

/-- The lazy-load body of the part_000 municipalities handler
(lines 99-122); identical to index.js except for the 404 message and for
`close` running after the response is sent (same event multiset). -/
def muniLoad000 (env : Env) (m : MuniCache) (code : String) : MuniResult :=
  if muniFileName code ∉ env.files then
    ⟨⟨404, Body.err "Municipality data not found for this department" none⟩, m, [], 1⟩
  else
    match env.openDs (muniFileName code) with
    | Except.error e =>
      ⟨⟨500, Body.err "Failed to read municipality data" (some e)⟩, m, [], 1⟩
    | Except.ok db =>
      match db.layers with
      | [] =>
        ⟨⟨500, Body.err "Failed to read municipality data" (some "Layer not found")⟩,
          m, [FsEvent.openDs (muniFileName code)], 1⟩
      | l :: _ =>
        match readFeaturesFromLayer l with
        | Except.error e =>
          ⟨⟨500, Body.err "Failed to read municipality data" (some e)⟩,
            m, [FsEvent.openDs (muniFileName code)], 1⟩
        | Except.ok fs =>
          ⟨⟨200, Body.fc ⟨"FeatureCollection", fs⟩⟩,
            mapSet m code (⟨"FeatureCollection", fs⟩, env.now),
            [FsEvent.openDs (muniFileName code), FsEvent.closeDs (muniFileName code)], 1⟩

/-- `app.get("/api/municipalities/:departmentCode")` of part_000
(lines 87-123): `municipalities.has(code)` then the timestamp check. -/
def muniHandler000 (env : Env) (m : MuniCache) (code : String) : MuniResult :=
  match mapGet m code with
  | some (data, ts) =>
    if env.now - ts < CACHE_EXPIRY then ⟨⟨200, Body.fc data⟩, m, [], 0⟩
    else muniLoad000 env m code
  | none => muniLoad000 env m code

/-- `app.get("/api/departments")` of `src/index.js` (lines 74-77): serve
the preloaded collection whenever it is non-null; no clock is read and no
production code exists in this handler, so the produced count is 0. -/
def deptHandlerIndex (st : ServerState) : Response × Nat :=
  match st.departments with
  | none => (⟨500, Body.err "Departments data not available" none⟩, 0)
  | some fc => (⟨200, Body.fc fc⟩, 0)

/-- The startup preload of `src/index.js` (lines 57-71): open
`department.gpkg`, read the first layer, fill the cache; on any throw the
cache fields stay null. -/
def preloadDepartments (env : Env) : ServerState :=
  match env.openDs "department.gpkg" with
  | Except.error _ => ⟨none, none, []⟩
  | Except.ok db =>
    match db.layers with
    | [] => ⟨none, none, []⟩
    | l :: _ =>
      match readFeaturesFromLayer l with
      | Except.error _ => ⟨none, none, []⟩
      | Except.ok fs =>
        ⟨some ⟨"FeatureCollection", fs⟩, some env.now, []⟩

/-- The reload body of the part_000 departments handler (lines 71-83):
read layer 0 of the long-lived `departmentDb` handle (a throw — including
`departmentDb` being undefined after a failed startup open — answers 500
without touching the cache). -/
def deptLoad000 (env : Env) (st : ServerState) : DeptResult :=
  match env.departmentDb with
  | none => ⟨⟨500, Body.err "Failed to read departments" none⟩, st, 1⟩
  | some db =>
    match db.layers with
    | [] => ⟨⟨500, Body.err "Failed to read departments" none⟩, st, 1⟩
    | l :: _ =>
      match readFeaturesFromLayer l with
      | Except.error _ => ⟨⟨500, Body.err "Failed to read departments" none⟩, st, 1⟩
      | Except.ok fs =>
        ⟨⟨200, Body.fc ⟨"FeatureCollection", fs⟩⟩,
          { st with departments := some ⟨"FeatureCollection", fs⟩, lastUpdated := some env.now }, 1⟩

/-- `app.get("/api/departments")` of part_000 (lines 65-84): the guard is
`cache.departments && cache.lastUpdated && (Date.now() - lastUpdated) < CACHE_EXPIRY`;
a `lastUpdated` of 0 is falsy in JavaScript, hence the `ts ≠ 0` conjunct. -/
def deptHandler000 (env : Env) (st : ServerState) : DeptResult :=
  match st.departments, st.lastUpdated with
  | some fc, some ts =>
    if ts ≠ 0 ∧ env.now - ts < CACHE_EXPIRY then ⟨⟨200, Body.fc fc⟩, st, 0⟩
    else deptLoad000 env st
  | _, _ => deptLoad000 env st

/-- `app.delete("/api/cache")` (index.js lines 110-115 / part_000 lines
126-131): null the departments value and timestamp, clear the map. -/
def clearCacheHandler (_st : ServerState) : ServerState × Response :=
  (⟨none, none, []⟩, ⟨200, Body.msg "Cache cleared"⟩)

/-- `app.get("/api/municipalities/:departmentCode")` of part_001
(lines 65-104): build the Supabase URL, fetch, throw on a non-ok status,
write the bytes to the temp file, open it with gdal, read layer 0,
respond, close, unlink; any throw is caught and answered with 500.  The
outcome of `gdal.open(tempPath)` is a function of the written bytes
(`env.openBlob`). -/
def muniHandlerRemote (env : Env) (code : String) : RemoteResult :=
  match env.remote (municipalityUrl code) with
  | Except.error e =>
    ⟨⟨500, Body.err "Failed to read municipality data" (some e)⟩, []⟩
  | Except.ok resp =>
    if resp.ok then
      match env.openBlob resp.blob with
      | Except.error e =>
        ⟨⟨500, Body.err "Failed to read municipality data" (some e)⟩,
          [FsEvent.writeTemp (tempPathOf code)]⟩
      | Except.ok db =>
        match db.layers with
        | [] =>
          ⟨⟨500, Body.err "Failed to read municipality data" (some "Layer not found")⟩,
            [FsEvent.writeTemp (tempPathOf code), FsEvent.openDs (tempPathOf code)]⟩
        | l :: _ =>
          match readFeaturesFromLayer l with
          | Except.error e =>
            ⟨⟨500, Body.err "Failed to read municipality data" (some e)⟩,
              [FsEvent.writeTemp (tempPathOf code), FsEvent.openDs (tempPathOf code)]⟩
          | Except.ok fs =>
            ⟨⟨200, Body.fc ⟨"FeatureCollection", fs⟩⟩,
              [FsEvent.writeTemp (tempPathOf code), FsEvent.openDs (tempPathOf code),
               FsEvent.closeDs (tempPathOf code), FsEvent.unlinkTemp (tempPathOf code)]⟩
    else
      ⟨⟨500, Body.err "Failed to read municipality data"
          (some ("Failed to fetch Municipality.gpkg: " ++ toString resp.status ++ " " ++ resp.statusText))⟩,
        []⟩

/-- True when the municipalities cache holds an entry for `code` younger
than `CACHE_EXPIRY` — the guard of the cache-hit fast path. -/
def freshHit (env : Env) (m : MuniCache) (code : String) : Bool :=
  match mapGet m code with
  | some (_, ts) => decide (env.now - ts < CACHE_EXPIRY)
  | none => false

/-! Concrete fixtures used by witnesses and counterexamples. -/

/-- A single well-formed record. -/
def recW : SourceFeature := ⟨[("DPTO_CCDGO", Scalar.str "05")], Geometry.point [1, 2]⟩

/-- A one-record layer that reads cleanly. -/
def layerW : Layer := ⟨[Except.ok recW]⟩

/-- A dataset whose first layer is `layerW`. -/
def dsW : Dataset := ⟨[layerW]⟩

/-- The collection materialized from `dsW`. -/
def fcW : FeatureCollection := ⟨"FeatureCollection", [mkFeature recW]⟩

/-- A dataset whose first layer throws while being read. -/
def dsBad : Dataset := ⟨[⟨[Except.error "GetGeometry failed"]⟩]⟩

/-- Environment where everything succeeds: the file for code "05" exists,
every open yields `dsW`, the remote object is reachable. -/
def envOk : Env :=
  ⟨1000, [muniFileName "05"], fun _ => Except.ok dsW, some dsW,
    fun _ => Except.ok ⟨true, 200, "OK", 0⟩, fun _ => Except.ok dsW⟩

/-- `envOk` at a clock past the TTL of an entry stamped at time 1. -/
def envLate : Env := { envOk with now := 400001 }

/-- Environment where the file for code "05" exists but reading its layer
throws mid-iteration. -/
def envReadFail : Env :=
  ⟨1000, [muniFileName "05"], fun _ => Except.ok dsBad, some dsBad,
    fun _ => Except.ok ⟨true, 200, "OK", 0⟩, fun _ => Except.ok dsBad⟩

/-- Environment with no local dataset files and an unreachable remote
object (the fetch resolves with ok = false, status 404). -/
def envNoFile : Env :=
  ⟨1000, [], fun _ => Except.error "unused", none,
    fun _ => Except.ok ⟨false, 404, "Not Found", 0⟩, fun _ => Except.error "unused"⟩

/-- Environment where the remote object is reachable but `gdal.open` on
the written temp file throws. -/
def envTempLeak : Env :=
  ⟨1000, [], fun _ => Except.error "unused", none,
    fun _ => Except.ok ⟨true, 200, "OK", 7⟩,
    fun _ => Except.error "not recognized as a supported file format"⟩

/-! Helper lemmas about the handlers. -/

/-- Entering the lazy-load body counts as one production call, on every
branch. -/
theorem muniLoadIndex_produced (env : Env) (m : MuniCache) (code : String) :
    (muniLoadIndex env m code).produced = 1 := by
  unfold muniLoadIndex
  repeat' split
  all_goals rfl

/-- Same for the part_000 lazy-load body. -/
theorem muniLoad000_produced (env : Env) (m : MuniCache) (code : String) :
    (muniLoad000 env m code).produced = 1 := by
  unfold muniLoad000
  repeat' split
  all_goals rfl

/-- Same for the part_000 departments reload body. -/
theorem deptLoad000_produced (env : Env) (st : ServerState) :
    (deptLoad000 env st).produced = 1 := by
  unfold deptLoad000
  repeat' split
  all_goals rfl

/-- The lazy load either succeeds with status 200 or leaves the
municipalities cache untouched and answers with an error object. -/
theorem muniLoadIndex_fail_or (env : Env) (m : MuniCache) (code : String) :
    (muniLoadIndex env m code).response.status = 200 ∨
    ((muniLoadIndex env m code).munis = m ∧
      ∃ msg det, (muniLoadIndex env m code).response.body = Body.err msg det) := by
  unfold muniLoadIndex
  repeat' split
  all_goals first
  | (left; rfl)
  | (right; exact ⟨rfl, _, _, rfl⟩)

/-- part_000 version of `muniLoadIndex_fail_or`. -/
theorem muniLoad000_fail_or (env : Env) (m : MuniCache) (code : String) :
    (muniLoad000 env m code).response.status = 200 ∨
    ((muniLoad000 env m code).munis = m ∧
      ∃ msg det, (muniLoad000 env m code).response.body = Body.err msg det) := by
  unfold muniLoad000
  repeat' split
  all_goals first
  | (left; rfl)
  | (right; exact ⟨rfl, _, _, rfl⟩)

/-- The lazy load answers 404 exactly when the dataset file is absent. -/
theorem muniLoadIndex_404_iff (env : Env) (m : MuniCache) (code : String) :
    ((muniLoadIndex env m code).response.status = 404) ↔
      muniFileName code ∉ env.files := by
  unfold muniLoadIndex
  split
  · rename_i hin
    simpa using hin
  · rename_i hin
    repeat' split
    all_goals simp [hin]

/-- Unless the lazy load answers 500 (a throw after `gdal.open`), every
dataset handle it opened is closed. -/
theorem muniLoadIndex_closes_or (env : Env) (m : MuniCache) (code : String) :
    (muniLoadIndex env m code).response.status = 500 ∨
    ∀ p, FsEvent.openDs p ∈ (muniLoadIndex env m code).events →
      FsEvent.closeDs p ∈ (muniLoadIndex env m code).events := by
  unfold muniLoadIndex
  repeat' split
  all_goals first
  | (left; rfl)
  | (right; intro p hp; simp at hp; try simp [hp])

/-- A cache miss sends the municipalities handler to the lazy load. -/
theorem muniHandlerIndex_miss (env : Env) (m : MuniCache) (code : String)
    (hg : mapGet m code = none) :
    muniHandlerIndex env m code = muniLoadIndex env m code := by
  unfold muniHandlerIndex
  simp only [hg]

/-- A stale entry sends the municipalities handler to the lazy load. -/
theorem muniHandlerIndex_stale (env : Env) (m : MuniCache) (code : String)
    (d : FeatureCollection) (ts : Nat)
    (hg : mapGet m code = some (d, ts)) (hstale : CACHE_EXPIRY ≤ env.now - ts) :
    muniHandlerIndex env m code = muniLoadIndex env m code := by
  unfold muniHandlerIndex
  simp only [hg]
  rw [if_neg (not_lt.mpr hstale)]

/-- A fresh entry is served as is: no cache write, no file-system event,
no production call. -/
theorem muniHandlerIndex_fresh (env : Env) (m : MuniCache) (code : String)
    (d : FeatureCollection) (ts : Nat)
    (hg : mapGet m code = some (d, ts)) (h1 : env.now - ts < CACHE_EXPIRY) :
    muniHandlerIndex env m code = ⟨⟨200, Body.fc d⟩, m, [], 0⟩ := by
  unfold muniHandlerIndex
  simp only [hg]
  rw [if_pos h1]

/-- Without a fresh cache hit the municipalities handler runs the lazy
load (stated through the executable guard `freshHit`). -/
theorem muniHandlerIndex_not_fresh (env : Env) (m : MuniCache) (code : String)
    (h : freshHit env m code = false) :
    muniHandlerIndex env m code = muniLoadIndex env m code := by
  unfold muniHandlerIndex
  unfold freshHit at h
  cases hg : mapGet m code with
  | none => simp only [hg]
  | some p =>
    obtain ⟨d, ts⟩ := p
    simp only [hg] at h ⊢
    rw [if_neg (by simpa using h)]

/-- part_000 cache-miss analogue. -/
theorem muniHandler000_miss (env : Env) (m : MuniCache) (code : String)
    (hg : mapGet m code = none) :
    muniHandler000 env m code = muniLoad000 env m code := by
  unfold muniHandler000
  simp only [hg]

/-- part_000 stale analogue. -/
theorem muniHandler000_stale (env : Env) (m : MuniCache) (code : String)
    (d : FeatureCollection) (ts : Nat)
    (hg : mapGet m code = some (d, ts)) (hstale : CACHE_EXPIRY ≤ env.now - ts) :
    muniHandler000 env m code = muniLoad000 env m code := by
  unfold muniHandler000
  simp only [hg]
  rw [if_neg (not_lt.mpr hstale)]

/-- part_000 fresh-hit analogue. -/
theorem muniHandler000_fresh (env : Env) (m : MuniCache) (code : String)
    (d : FeatureCollection) (ts : Nat)
    (hg : mapGet m code = some (d, ts)) (h1 : env.now - ts < CACHE_EXPIRY) :
    muniHandler000 env m code = ⟨⟨200, Body.fc d⟩, m, [], 0⟩ := by
  unfold muniHandler000
  simp only [hg]
  rw [if_pos h1]

/-- part_000 departments: a stale timestamp sends the handler to the
reload body. -/
theorem deptHandler000_stale (env : Env) (st : ServerState)
    (fc : FeatureCollection) (ts : Nat)
    (h1 : st.departments = some fc) (h2 : st.lastUpdated = some ts)
    (hstale : CACHE_EXPIRY ≤ env.now - ts) :
    deptHandler000 env st = deptLoad000 env st := by
  unfold deptHandler000
  simp only [h1, h2]
  rw [if_neg]
  intro hcon
  exact absurd hcon.2 (not_lt.mpr hstale)

/-- part_000 departments: a fresh timestamp serves the cached collection
with no state change and no production call. -/
theorem deptHandler000_fresh (env : Env) (st : ServerState)
    (fc : FeatureCollection) (ts : Nat)
    (h1 : st.departments = some fc) (h2 : st.lastUpdated = some ts)
    (hts : ts ≠ 0) (hfr : env.now - ts < CACHE_EXPIRY) :
    deptHandler000 env st = ⟨⟨200, Body.fc fc⟩, st, 0⟩ := by
  unfold deptHandler000
  simp only [h1, h2]
  rw [if_pos ⟨hts, hfr⟩]

/-! Claim theorems. -/

/-- C1 (counterexample): in the remote-fetch municipality producer
(part_001), when `gdal.open` fails after the temp file was written, the
request answers 500 and the temp file is never unlinked — it is leaked on
this exit path, so delete-on-every-exit-path is false. -/
theorem C1_cex_temp_file_leak :
    (muniHandlerRemote envTempLeak "05").response.status = 500 ∧
    (muniHandlerRemote envTempLeak "05").events =
      [FsEvent.writeTemp (tempPathOf "05")] ∧
    FsEvent.unlinkTemp (tempPathOf "05") ∉
      (muniHandlerRemote envTempLeak "05").events := by
  refine ⟨?_, ?_, ?_⟩ <;> decide

/-- C1 (amended): the temp file written by the remote-fetch municipality
producer is deleted before the operation returns on the success path
(write, open, close, unlink, in that order); on a failure after the temp
file was written it is not deleted. -/
theorem C1_temp_file_deleted_on_success (env : Env) (code : String)
    (h : (muniHandlerRemote env code).response.status = 200) :
    (muniHandlerRemote env code).events =
      [FsEvent.writeTemp (tempPathOf code), FsEvent.openDs (tempPathOf code),
       FsEvent.closeDs (tempPathOf code), FsEvent.unlinkTemp (tempPathOf code)] := by
  unfold muniHandlerRemote at h ⊢
  cases hr : env.remote (municipalityUrl code) with
  | error e => simp [hr] at h
  | ok resp =>
    simp only [hr] at h ⊢
    by_cases hok : resp.ok
    · simp only [hok, if_true] at h ⊢
      cases hb : env.openBlob resp.blob with
      | error e => simp [hb] at h
      | ok db =>
        simp only [hb] at h ⊢
        cases hl : db.layers with
        | nil => simp [hl] at h
        | cons l rest =>
          simp only [hl] at h ⊢
          cases hf : readFeaturesFromLayer l with
          | error e => simp [hf] at h
          | ok fs => simp [hf]
    · simp [hok] at h

/-- C1 (witness): a concrete successful remote fetch and materialization. -/
theorem C1_witness :
    (muniHandlerRemote envOk "05").events =
      [FsEvent.writeTemp (tempPathOf "05"), FsEvent.openDs (tempPathOf "05"),
       FsEvent.closeDs (tempPathOf "05"), FsEvent.unlinkTemp (tempPathOf "05")] :=
  C1_temp_file_deleted_on_success envOk "05" (by decide)

/-- C2 (counterexample): in `src/index.js` the departments endpoint reads
no clock: with a cached collection stamped at time 1 and the clock at
400001 (age 400000 ≥ CACHE_EXPIRY = 300000) the stale value is returned
with status 200 and zero production calls. -/
theorem C2_cex_departments_stale_served :
    CACHE_EXPIRY ≤ envLate.now - 1 ∧
    deptHandlerIndex ⟨some fcW, some 1, []⟩ = (⟨200, Body.fc fcW⟩, 0) := by
  refine ⟨?_, ?_⟩ <;> decide

/-- C2 (amended): for every municipality key of index.js and for the
part_000 departments endpoint, an entry whose age is ≥ CACHE_EXPIRY is
never served: the handler runs the production body, counting one
production call; the index.js departments endpoint has no TTL check. -/
theorem C2_stale_triggers_production :
    (∀ env m code d ts,
      mapGet m code = some (d, ts) → CACHE_EXPIRY ≤ env.now - ts →
      muniHandlerIndex env m code = muniLoadIndex env m code ∧
      (muniHandlerIndex env m code).produced = 1) ∧
    (∀ env m code d ts,
      mapGet m code = some (d, ts) → CACHE_EXPIRY ≤ env.now - ts →
      muniHandler000 env m code = muniLoad000 env m code ∧
      (muniHandler000 env m code).produced = 1) ∧
    (∀ env st fc ts,
      st.departments = some fc → st.lastUpdated = some ts →
      CACHE_EXPIRY ≤ env.now - ts →
      deptHandler000 env st = deptLoad000 env st ∧
      (deptHandler000 env st).produced = 1) := by
  refine ⟨?_, ?_, ?_⟩
  · intro env m code d ts hg hstale
    have he := muniHandlerIndex_stale env m code d ts hg hstale
    exact ⟨he, by rw [he]; exact muniLoadIndex_produced env m code⟩
  · intro env m code d ts hg hstale
    have he := muniHandler000_stale env m code d ts hg hstale
    exact ⟨he, by rw [he]; exact muniLoad000_produced env m code⟩
  · intro env st fc ts h1 h2 hstale
    have he := deptHandler000_stale env st fc ts h1 h2 hstale
    exact ⟨he, by rw [he]; exact deptLoad000_produced env st⟩

/-- C2 (witness): concrete stale entries on all three covered endpoints. -/
theorem C2_witness :
    (muniHandlerIndex envLate [("05", (fcW, 1))] "05" =
        muniLoadIndex envLate [("05", (fcW, 1))] "05" ∧
      (muniHandlerIndex envLate [("05", (fcW, 1))] "05").produced = 1) ∧
    (muniHandler000 envLate [("05", (fcW, 1))] "05" =
        muniLoad000 envLate [("05", (fcW, 1))] "05" ∧
      (muniHandler000 envLate [("05", (fcW, 1))] "05").produced = 1) ∧
    (deptHandler000 envLate ⟨some fcW, some 1, []⟩ =
        deptLoad000 envLate ⟨some fcW, some 1, []⟩ ∧
      (deptHandler000 envLate ⟨some fcW, some 1, []⟩).produced = 1) :=
  ⟨C2_stale_triggers_production.1 envLate [("05", (fcW, 1))] "05" fcW 1
      (by decide) (by decide),
   C2_stale_triggers_production.2.1 envLate [("05", (fcW, 1))] "05" fcW 1
      (by decide) (by decide),
   C2_stale_triggers_production.2.2 envLate ⟨some fcW, some 1, []⟩ fcW 1
      rfl rfl (by decide)⟩

/-- C3 (counterexample): in `src/index.js` the departments value is
produced only by the startup preload; after DELETE /api/cache, a get for
the previously-cached departments key answers 500 with zero production
calls instead of one fresh production returning a fresh value. -/
theorem C3_cex_departments_clear_then_error :
    (preloadDepartments envOk).departments = some fcW ∧
    deptHandlerIndex (clearCacheHandler (preloadDepartments envOk)).1 =
      (⟨500, Body.err "Departments data not available" none⟩, 0) := by
  refine ⟨?_, ?_⟩ <;> decide

/-- C3 (amended): for every municipality key, invalidate-all followed by a
get runs production exactly once and, when production succeeds, returns
and caches the freshly produced collection; the index.js departments key
instead answers an error without any production call. -/
theorem C3_clear_then_get_reproduces (env : Env) (st : ServerState)
    (code : String) (db : Dataset) (l : Layer) (rest : List Layer)
    (fs : List Feature)
    (hfile : muniFileName code ∈ env.files)
    (hopen : env.openDs (muniFileName code) = Except.ok db)
    (hl : db.layers = l :: rest)
    (hread : readFeaturesFromLayer l = Except.ok fs) :
    muniHandlerIndex env (clearCacheHandler st).1.municipalities code =
      ⟨⟨200, Body.fc ⟨"FeatureCollection", fs⟩⟩,
        [(code, (⟨"FeatureCollection", fs⟩, env.now))],
        [FsEvent.openDs (muniFileName code), FsEvent.closeDs (muniFileName code)],
        1⟩ := by
  rw [muniHandlerIndex_miss env (clearCacheHandler st).1.municipalities code rfl]
  unfold muniLoadIndex
  rw [if_neg (not_not.mpr hfile)]
  simp only [hopen, hl, hread]
  rfl

/-- C3 (witness): clear then get on a concrete previously-cached key. -/
theorem C3_witness :
    muniHandlerIndex envOk
        (clearCacheHandler ⟨some fcW, some 5, [("05", (fcW, 5))]⟩).1.municipalities "05" =
      ⟨⟨200, Body.fc ⟨"FeatureCollection", [mkFeature recW]⟩⟩,
        [("05", (⟨"FeatureCollection", [mkFeature recW]⟩, envOk.now))],
        [FsEvent.openDs (muniFileName "05"), FsEvent.closeDs (muniFileName "05")],
        1⟩ :=
  C3_clear_then_get_reproduces envOk ⟨some fcW, some 5, [("05", (fcW, 5))]⟩ "05"
    dsW layerW [] [mkFeature recW] (by decide) rfl rfl rfl

/-- C4: on every failing production (any non-200 outcome: missing file,
open failure, read failure) the municipalities cache is left exactly as it
was — stale entries included — and the response is an error object with a
human-readable message, in both the index.js and part_000 handlers. -/
theorem C4_failure_preserves_cache :
    (∀ env m code,
      (muniHandlerIndex env m code).response.status ≠ 200 →
      (muniHandlerIndex env m code).munis = m ∧
      ∃ msg det, (muniHandlerIndex env m code).response.body = Body.err msg det) ∧
    (∀ env m code,
      (muniHandler000 env m code).response.status ≠ 200 →
      (muniHandler000 env m code).munis = m ∧
      ∃ msg det, (muniHandler000 env m code).response.body = Body.err msg det) := by
  constructor
  · intro env m code h
    cases hg : mapGet m code with
    | none =>
      rw [muniHandlerIndex_miss env m code hg] at h ⊢
      exact (muniLoadIndex_fail_or env m code).resolve_left h
    | some p =>
      obtain ⟨d, ts⟩ := p
      by_cases hf : env.now - ts < CACHE_EXPIRY
      · rw [muniHandlerIndex_fresh env m code d ts hg hf] at h
        exact absurd rfl h
      · rw [muniHandlerIndex_stale env m code d ts hg (not_lt.mp hf)] at h ⊢
        exact (muniLoadIndex_fail_or env m code).resolve_left h
  · intro env m code h
    cases hg : mapGet m code with
    | none =>
      rw [muniHandler000_miss env m code hg] at h ⊢
      exact (muniLoad000_fail_or env m code).resolve_left h
    | some p =>
      obtain ⟨d, ts⟩ := p
      by_cases hf : env.now - ts < CACHE_EXPIRY
      · rw [muniHandler000_fresh env m code d ts hg hf] at h
        exact absurd rfl h
      · rw [muniHandler000_stale env m code d ts hg (not_lt.mp hf)] at h ⊢
        exact (muniLoad000_fail_or env m code).resolve_left h

/-- C4 (witness): a stale entry for the requested key survives a failed
refresh untouched. -/
theorem C4_witness :
    (muniHandlerIndex envLate [("09", (fcW, 1))] "09").munis = [("09", (fcW, 1))] ∧
    ∃ msg det,
      (muniHandlerIndex envLate [("09", (fcW, 1))] "09").response.body =
        Body.err msg det :=
  C4_failure_preserves_cache.1 envLate [("09", (fcW, 1))] "09" (by decide)

/-- C5 (counterexample): in the remote variant (part_001), a code with no
local file and an unreachable remote object answers 500, not 404 with a
"Municipality data not found" body. -/
theorem C5_cex_remote_unreachable_500 :
    envNoFile.files = [] ∧
    (muniHandlerRemote envNoFile "99").response.status = 500 ∧
    (muniHandlerRemote envNoFile "99").response.status ≠ 404 := by
  refine ⟨rfl, ?_, ?_⟩ <;> decide

/-- C5 (amended): in the local-file variant (src/index.js), a request
whose code has no fresh cache entry and no local dataset file answers 404
with body error "Municipality data not found" and changes nothing; the
remote variant instead answers 500 when the remote object is unreachable. -/
theorem C5_local_missing_404 (env : Env) (m : MuniCache) (code : String)
    (hfresh : freshHit env m code = false)
    (hfile : muniFileName code ∉ env.files) :
    muniHandlerIndex env m code =
      ⟨⟨404, Body.err "Municipality data not found" none⟩, m, [], 1⟩ := by
  rw [muniHandlerIndex_not_fresh env m code hfresh]
  unfold muniLoadIndex
  rw [if_pos hfile]

/-- C5 (witness): concrete missing code "99". -/
theorem C5_witness :
    muniHandlerIndex envNoFile [] "99" =
      ⟨⟨404, Body.err "Municipality data not found" none⟩, [], [], 1⟩ :=
  C5_local_missing_404 envNoFile [] "99" rfl (by decide)

/-- C6: materializing a layer of N cleanly-reading records yields exactly
N features, one per record in source order, each of type "Feature" with
the record's attributes copied verbatim into properties and its geometry
in the nested-coordinate representation (`mkFeature`). -/
theorem C6_materialization_roundtrip (recs : List SourceFeature) :
    readFeaturesFromLayer ⟨recs.map Except.ok⟩ = Except.ok (recs.map mkFeature) ∧
    (recs.map mkFeature).length = recs.length := by
  constructor
  · unfold readFeaturesFromLayer
    induction recs with
    | nil => rfl
    | cons f rest ih => simp only [List.map_cons, readFeaturesE, ih]
  · simp

/-- C7 (counterexample): in src/index.js, when reading the layer throws
after `gdal.open` succeeded, the handler answers 500 and the opened
dataset handle is never closed — the handle leaks on this exit path. -/
theorem C7_cex_handle_leak_on_read_failure :
    (muniHandlerIndex envReadFail [] "05").response.status = 500 ∧
    (muniHandlerIndex envReadFail [] "05").events =
      [FsEvent.openDs (muniFileName "05")] ∧
    FsEvent.closeDs (muniFileName "05") ∉
      (muniHandlerIndex envReadFail [] "05").events := by
  refine ⟨?_, ?_, ?_⟩ <;> decide

/-- C7 (amended): on every exit path that is not a caught throw (status
≠ 500) every dataset handle the municipalities request opened is closed;
on a throw after a successful open, the handle is left open. -/
theorem C7_handles_closed_without_throw (env : Env) (m : MuniCache) (code : String)
    (h : (muniHandlerIndex env m code).response.status ≠ 500) :
    ∀ p, FsEvent.openDs p ∈ (muniHandlerIndex env m code).events →
      FsEvent.closeDs p ∈ (muniHandlerIndex env m code).events := by
  cases hg : mapGet m code with
  | none =>
    rw [muniHandlerIndex_miss env m code hg] at h ⊢
    exact (muniLoadIndex_closes_or env m code).resolve_left h
  | some p0 =>
    obtain ⟨d, ts⟩ := p0
    by_cases hf : env.now - ts < CACHE_EXPIRY
    · rw [muniHandlerIndex_fresh env m code d ts hg hf]
      intro p hp
      simp at hp
    · rw [muniHandlerIndex_stale env m code d ts hg (not_lt.mp hf)] at h ⊢
      exact (muniLoadIndex_closes_or env m code).resolve_left h

/-- C7 (witness): on a concrete successful load the opened handle is
closed. -/
theorem C7_witness :
    FsEvent.closeDs (muniFileName "05") ∈ (muniHandlerIndex envOk [] "05").events :=
  C7_handles_closed_without_throw envOk [] "05" (by decide)
    (muniFileName "05") (by decide)

/-- C8: a request that finds a cache entry younger than CACHE_EXPIRY
returns exactly the cached value with no cache write, no file-system
event and no production call; a second within-TTL request returns the
identical value (index.js municipalities and part_000 departments). -/
theorem C8_fresh_hit_no_side_effects :
    (∀ env env' m code d ts,
      mapGet m code = some (d, ts) →
      env.now - ts < CACHE_EXPIRY → env'.now - ts < CACHE_EXPIRY →
      muniHandlerIndex env m code = ⟨⟨200, Body.fc d⟩, m, [], 0⟩ ∧
      muniHandlerIndex env' (muniHandlerIndex env m code).munis code =
        ⟨⟨200, Body.fc d⟩, m, [], 0⟩) ∧
    (∀ env st fc ts,
      st.departments = some fc → st.lastUpdated = some ts → ts ≠ 0 →
      env.now - ts < CACHE_EXPIRY →
      deptHandler000 env st = ⟨⟨200, Body.fc fc⟩, st, 0⟩) := by
  constructor
  · intro env env' m code d ts hg h1 h2
    have e1 := muniHandlerIndex_fresh env m code d ts hg h1
    refine ⟨e1, ?_⟩
    rw [e1]
    exact muniHandlerIndex_fresh env' m code d ts hg h2
  · intro env st fc ts h1 h2 hts hfr
    exact deptHandler000_fresh env st fc ts h1 h2 hts hfr

/-- C8 (witness): two concrete within-TTL requests. -/
theorem C8_witness :
    (muniHandlerIndex envOk [("05", (fcW, 900))] "05" =
        ⟨⟨200, Body.fc fcW⟩, [("05", (fcW, 900))], [], 0⟩ ∧
      muniHandlerIndex envOk
          (muniHandlerIndex envOk [("05", (fcW, 900))] "05").munis "05" =
        ⟨⟨200, Body.fc fcW⟩, [("05", (fcW, 900))], [], 0⟩) ∧
    deptHandler000 envOk ⟨some fcW, some 900, []⟩ =
      ⟨⟨200, Body.fc fcW⟩, ⟨some fcW, some 900, []⟩, 0⟩ :=
  ⟨C8_fresh_hit_no_side_effects.1 envOk envOk [("05", (fcW, 900))] "05" fcW 900
      (by decide) (by decide) (by decide),
   C8_fresh_hit_no_side_effects.2 envOk ⟨some fcW, some 900, []⟩ fcW 900
      rfl rfl (by decide) (by decide)⟩

/-- C10: the municipalities endpoint validates nothing about the supplied
code string: for every string it builds the file name (and, in the remote
variant, the URL) by raw interpolation, and — absent a fresh cache hit —
answers 404 exactly when that file is absent. -/
theorem C10_no_format_validation (env : Env) (m : MuniCache) (code : String)
    (hfresh : freshHit env m code = false) :
    muniFileName code = "DPTO_CCDGO_" ++ code ++ ".gpkg" ∧
    municipalityUrl code = supabaseBase ++ "DPTO_CCDGO_" ++ code ++ ".gpkg" ∧
    (((muniHandlerIndex env m code).response.status = 404) ↔
      muniFileName code ∉ env.files) := by
  refine ⟨rfl, rfl, ?_⟩
  rw [muniHandlerIndex_not_fresh env m code hfresh]
  exact muniLoadIndex_404_iff env m code

/-- C10 (witness): a non-numeric, arbitrarily shaped code is accepted and
resolved purely by file existence. -/
theorem C10_witness :
    muniFileName "zz--@@//42" = "DPTO_CCDGO_" ++ "zz--@@//42" ++ ".gpkg" ∧
    municipalityUrl "zz--@@//42" =
      supabaseBase ++ "DPTO_CCDGO_" ++ "zz--@@//42" ++ ".gpkg" ∧
    (((muniHandlerIndex envNoFile [] "zz--@@//42").response.status = 404) ↔
      muniFileName "zz--@@//42" ∉ envNoFile.files) :=
  C10_no_format_validation envNoFile [] "zz--@@//42" rfl

end Census
